import Mathlib

/-!
Verification of the YAML-driven DSL workflow interpreter
(app/temporal/dsl_workflow.py and app/temporal/dsl_loader.py).

The development shallowly embeds the Python sources:

* `Value` models the dynamic YAML/JSON values held in the variable store
  (`None`, booleans, integers, strings, lists, string-keyed dicts).
* `dictGet` / `storeSet` model Python `dict.get` and `dict.__setitem__`
  on insertion-ordered association lists.
* `resolve_argument` is a line-by-line translation of
  `DSLWorkflow.resolve_argument`.
* `execute_statement` / `execute_activity` translate the interpreter;
  activity outcomes are supplied by an oracle `Ops` standing for the
  Temporal activity layer, and every invocation is recorded in a log
  together with the timeout and retry policy passed to the substrate.
* `parse_statement`, `parse_activity_statement` and
  `load_workflow_definition` translate the loader in dsl_loader.py.
-/

/-- Dynamic values: the payloads stored in the variable store.  Mirrors the
values produced by yaml.safe_load and by activity results. -/
inductive Value where
  | vnull : Value
  | vbool : Bool → Value
  | vint : Int → Value
  | vstr : String → Value
  | vlist : List Value → Value
  | vdict : List (String × Value) → Value

/-- The variable store `self.variables`: a string-keyed, insertion-ordered
mapping, modelled as an association list with unique keys. -/
abbrev Store := List (String × Value)

/-- Python `m.get(k)` / `k in m`: first binding of `k`, if any. -/
def dictGet (m : List (String × Value)) (k : String) : Option Value :=
  match m with
  | [] => none
  | (k₂, v) :: rest => if k₂ = k then some v else dictGet rest k

/-- Python key-membership test `k in m`. -/
def hasKey (m : List (String × Value)) (k : String) : Bool :=
  (dictGet m k).isSome

/-- Python `m[k] = v`: overwrite the existing binding of `k`, or append a
new binding at the end (insertion order). -/
def storeSet (m : Store) (k : String) (v : Value) : Store :=
  match m with
  | [] => [(k, v)]
  | (k₂, w) :: rest => if k₂ = k then (k₂, v) :: rest else (k₂, w) :: storeSet rest k v

theorem dictGet_storeSet_self (m : Store) (k : String) (v : Value) :
    dictGet (storeSet m k v) k = some v := by
  induction m with
  | nil => simp [storeSet, dictGet]
  | cons p rest ih =>
    obtain ⟨k₂, w⟩ := p
    by_cases h : k₂ = k
    · simp [storeSet, dictGet, h]
    · simp [storeSet, dictGet, h, ih]

theorem dictGet_storeSet_ne (m : Store) (k k' : String) (v : Value) (h : k' ≠ k) :
    dictGet (storeSet m k v) k' = dictGet m k' := by
  have h' : k ≠ k' := Ne.symm h
  induction m with
  | nil => simp [storeSet, dictGet, h']
  | cons p rest ih =>
    obtain ⟨k₂, w⟩ := p
    by_cases h₂ : k₂ = k
    · subst h₂
      simp [storeSet, dictGet, h']
    · simp [storeSet, dictGet, h₂, ih]

theorem hasKey_storeSet (m : Store) (k k' : String) (v : Value)
    (h : hasKey m k' = true) : hasKey (storeSet m k v) k' = true := by
  by_cases hk : k' = k
  · subst hk
    simp [hasKey, dictGet_storeSet_self]
  · simpa [hasKey, dictGet_storeSet_ne m k k' v hk] using h

theorem dictGet_storeSet_changed (m : Store) (k k' : String) (v : Value)
    (h : dictGet (storeSet m k v) k' ≠ dictGet m k') : k' = k := by
  by_cases hk : k' = k
  · exact hk
  · exact absurd (dictGet_storeSet_ne m k k' v hk) h

/-! ### The variable resolver (DSLWorkflow.resolve_argument)

Python source:

```
if "." not in arg:
    return self.variables.get(arg, arg)
keys = arg.split(".")
value = self.variables
for key in keys:
    if isinstance(value, dict):
        value = value.get(key)
        if value is None:
            return arg
    else:
        return arg
return value
```
-/

/-- Python `"." in arg` (membership of the separator character). -/
def containsDot (s : String) : Bool :=
  s.data.contains '.'

/-- Helper for `splitDot`, walking the character list with an accumulator. -/
def splitDotAux : List Char → List Char → List String
  | [], acc => [String.mk acc.reverse]
  | c :: cs, acc =>
    if c = '.' then String.mk acc.reverse :: splitDotAux cs []
    else splitDotAux cs (c :: acc)

/-- Python `arg.split(".")`: split on every dot, keeping empty pieces. -/
def splitDot (s : String) : List String :=
  splitDotAux s.data []

/-- The loop of resolve_argument: walk the split keys from the store.
`value.get(key)` yields Python None both when `key` is absent and when the
stored value is None, and the code returns the original reference in either
case; a non-dict intermediate value also returns the original reference. -/
def resolveWalk (arg : String) : List String → Value → Value
  | [], v => v
  | k :: ks, Value.vdict m =>
    match dictGet m k with
    | some Value.vnull => Value.vstr arg
    | some v => resolveWalk arg ks v
    | none => Value.vstr arg
  | _ :: _, _ => Value.vstr arg

/-- DSLWorkflow.resolve_argument, translated from dsl_workflow.py. -/
def resolve_argument (vars : Store) (arg : String) : Value :=
  if !(containsDot arg) then
    match dictGet vars arg with
    | some v => v
    | none => Value.vstr arg
  else
    resolveWalk arg (splitDot arg) (Value.vdict vars)

/-- Walk as described verbatim by the specification of the resolver: the
fallback fires only when the current value is not a mapping or the key is
absent; otherwise the final key's stored value (null included) is returned. -/
def claimWalk : List String → Value → Option Value
  | [], v => some v
  | k :: ks, Value.vdict m =>
    match dictGet m k with
    | some v => claimWalk ks v
    | none => none
  | _ :: _, _ => none

/-- The resolver exactly as the specification words it (used to compare the
spec's description with the code). -/
def resolveClaimSpec (vars : Store) (arg : String) : Value :=
  if !(containsDot arg) then
    match dictGet vars arg with
    | some v => v
    | none => Value.vstr arg
  else
    match claimWalk (splitDot arg) (Value.vdict vars) with
    | some v => v
    | none => Value.vstr arg

/-- Walk as described by the amended specification: the fallback fires when
the current value is not a mapping, when the key is absent, or when the
value looked up at any step (the final key included) is null. -/
def amendedWalk : List String → Value → Option Value
  | [], v => some v
  | k :: ks, Value.vdict m =>
    match dictGet m k with
    | some Value.vnull => none
    | some v => amendedWalk ks v
    | none => none
  | _ :: _, _ => none

/-- The resolver as the amended specification words it. -/
def resolveAmendedSpec (vars : Store) (arg : String) : Value :=
  if !(containsDot arg) then
    match dictGet vars arg with
    | some v => v
    | none => Value.vstr arg
  else
    match amendedWalk (splitDot arg) (Value.vdict vars) with
    | some v => v
    | none => Value.vstr arg

theorem resolveWalk_amendedWalk (arg : String) (ks : List String) (v : Value) :
    resolveWalk arg ks v =
      match amendedWalk ks v with
      | some w => w
      | none => Value.vstr arg := by
  induction ks generalizing v with
  | nil => simp [resolveWalk, amendedWalk]
  | cons k ks ih =>
    cases v with
    | vdict m =>
      cases hv : dictGet m k with
      | none => simp [resolveWalk, amendedWalk, hv]
      | some w =>
        cases w with
        | vnull => simp [resolveWalk, amendedWalk, hv]
        | vbool b => simpa [resolveWalk, amendedWalk, hv] using ih _
        | vint n => simpa [resolveWalk, amendedWalk, hv] using ih _
        | vstr s => simpa [resolveWalk, amendedWalk, hv] using ih _
        | vlist l => simpa [resolveWalk, amendedWalk, hv] using ih _
        | vdict m₂ => simpa [resolveWalk, amendedWalk, hv] using ih _
    | vnull => simp [resolveWalk, amendedWalk]
    | vbool b => simp [resolveWalk, amendedWalk]
    | vint n => simp [resolveWalk, amendedWalk]
    | vstr s => simp [resolveWalk, amendedWalk]
    | vlist l => simp [resolveWalk, amendedWalk]

/-- The walk hits a null value: some step of the code's walk looks up a key
that is present and bound to null. -/
def walkHitsNull : List String → Value → Bool
  | [], _ => false
  | k :: ks, Value.vdict m =>
    match dictGet m k with
    | some Value.vnull => true
    | some v => walkHitsNull ks v
    | none => false
  | _ :: _, _ => false

theorem resolveWalk_of_hitsNull (arg : String) (ks : List String) (v : Value)
    (h : walkHitsNull ks v = true) : resolveWalk arg ks v = Value.vstr arg := by
  induction ks generalizing v with
  | nil => simp [walkHitsNull] at h
  | cons k ks ih =>
    cases v with
    | vdict m =>
      cases hv : dictGet m k with
      | none => simp [walkHitsNull, hv] at h
      | some w =>
        cases w with
        | vnull => simp [resolveWalk, hv]
        | vbool b =>
          rw [walkHitsNull] at h
          simp [hv] at h
          simpa [resolveWalk, hv] using ih _ h
        | vint n =>
          rw [walkHitsNull] at h
          simp [hv] at h
          simpa [resolveWalk, hv] using ih _ h
        | vstr s =>
          rw [walkHitsNull] at h
          simp [hv] at h
          simpa [resolveWalk, hv] using ih _ h
        | vlist l =>
          rw [walkHitsNull] at h
          simp [hv] at h
          simpa [resolveWalk, hv] using ih _ h
        | vdict m₂ =>
          rw [walkHitsNull] at h
          simp [hv] at h
          simpa [resolveWalk, hv] using ih _ h
    | vnull => simp [walkHitsNull] at h
    | vbool b => simp [walkHitsNull] at h
    | vint n => simp [walkHitsNull] at h
    | vstr s => simp [walkHitsNull] at h
    | vlist l => simp [walkHitsNull] at h

/-! ### The statement model and the interpreter (dsl_workflow.py)

`Statement` mirrors the dataclasses ActivityStatement/ActivityInvocation,
SequenceStatement/Sequence and ParallelStatement/Parallel: an activity
carries its operation name, reference-string arguments and optional result
name; sequence and parallel carry their child statements in order. -/

inductive Statement where
  | activity : String → List String → Option String → Statement
  | sequence : List Statement → Statement
  | parallel : List Statement → Statement

/-- One call handed to the Temporal substrate by execute_activity, with the
timeout and retry policy passed there (start_to_close_timeout =
timedelta(minutes=5), RetryPolicy(maximum_attempts=3)). -/
structure Invocation where
  opName : String
  args : List Value
  timeoutMinutes : Nat
  maxAttempts : Nat

/-- Outcome of interpreting a statement: the variable store after execution
(mutations before a failure persist, as in the Python object state), the
propagated error if any (`none` = success), and the ordered log of substrate
invocations that were issued. -/
structure ExecResult where
  store : Store
  err : Option String
  log : List Invocation

/-- The activity oracle: what the Temporal substrate answers for an
invocation of a named operation with the given (resolved) arguments —
either a result value or the error that surfaces once the retry policy is
exhausted. -/
abbrev Ops := String → List Value → Except String Value

/-- DSLWorkflow.execute_activity: resolve the arguments against the current
store in order, invoke the substrate with the 5-minute timeout and
3-attempt retry policy, and on success store the result when the result
field is truthy (Python `if stmt.activity.result:` — None and the empty
string both skip the write). -/
def execute_activity (ops : Ops) (nm : String) (args : List String)
    (res : Option String) (st : Store) : ExecResult :=
  let rargs := args.map (resolve_argument st)
  match ops nm rargs with
  | Except.ok v =>
    let st' := match res with
      | some r => if r.isEmpty then st else storeSet st r v
      | none => st
    ⟨st', none, [⟨nm, rargs, 5, 3⟩]⟩
  | Except.error e => ⟨st, some e, [⟨nm, rargs, 5, 3⟩]⟩

mutual
/-- DSLWorkflow.execute_statement: dispatch on the statement variant.
Parallel branches are modelled in branch order: the single store-write
primitive, the set of issued invocations and the join at the end are
faithful to execute_parallel; the interleaving of concurrent branches
(an asyncio scheduling concern) is not captured by this deterministic
embedding. -/
def execute_statement (ops : Ops) : Statement → Store → ExecResult
  | Statement.activity nm args res, st => execute_activity ops nm args res st
  | Statement.sequence es, st => execElems ops es st
  | Statement.parallel bs, st => execElems ops bs st

/-- The element loop shared by execute_sequence (a for loop awaiting each
element) and by the branch-order model of execute_parallel: run the
children left to right on the threaded store, stopping at the first
failure. -/
def execElems (ops : Ops) : List Statement → Store → ExecResult
  | [], st => ⟨st, none, []⟩
  | e :: es, st =>
    let r₁ := execute_statement ops e st
    match r₁.err with
    | none =>
      let r₂ := execElems ops es r₁.store
      ⟨r₂.store, r₂.err, r₁.log ++ r₂.log⟩
    | some err => ⟨r₁.store, some err, r₁.log⟩
end

/-- DSLWorkflow.execute_sequence on the elements of a Sequence. -/
def execute_sequence (ops : Ops) (es : List Statement) (st : Store) : ExecResult :=
  execElems ops es st

/-- DSLWorkflow.execute_parallel on the branches of a Parallel, in the
deterministic branch-order model described at execute_statement. -/
def execute_parallel (ops : Ops) (bs : List Statement) (st : Store) : ExecResult :=
  execElems ops bs st

theorem execElems_append_ok (ops : Ops) (es₁ es₂ : List Statement)
    (st st₁ : Store) (l₁ : List Invocation)
    (h : execElems ops es₁ st = ⟨st₁, none, l₁⟩) :
    execElems ops (es₁ ++ es₂) st =
      ⟨(execElems ops es₂ st₁).store, (execElems ops es₂ st₁).err,
        l₁ ++ (execElems ops es₂ st₁).log⟩ := by
  induction es₁ generalizing st l₁ with
  | nil =>
    simp [execElems] at h
    obtain ⟨h₁, h₂⟩ := h
    subst h₁
    subst h₂
    simp [execElems]
  | cons e es ih =>
    rw [execElems] at h
    rw [List.cons_append, execElems]
    cases herr : (execute_statement ops e st).err with
    | none =>
      simp [herr] at h ⊢
      obtain ⟨h₁, h₂, h₃⟩ := h
      have := ih (execute_statement ops e st).store
        (execElems ops es (execute_statement ops e st).store).log
        (by rw [← h₁, ← h₂])
      rw [this]
      simp [← h₃, List.append_assoc]
    | some err =>
      simp [herr] at h

theorem execElems_cons_fail (ops : Ops) (e : Statement) (es : List Statement)
    (st st₂ : Store) (err : String) (l₂ : List Invocation)
    (h : execute_statement ops e st = ⟨st₂, some err, l₂⟩) :
    execElems ops (e :: es) st = ⟨st₂, some err, l₂⟩ := by
  rw [execElems, h]

mutual
/-- Result names an activity under the statement may write to. -/
def resultNames : Statement → List String
  | Statement.activity _ _ (some r) => [r]
  | Statement.activity _ _ none => []
  | Statement.sequence es => resultNamesList es
  | Statement.parallel bs => resultNamesList bs

def resultNamesList : List Statement → List String
  | [] => []
  | e :: es => resultNames e ++ resultNamesList es
end

mutual
theorem execute_statement_keys (ops : Ops) (s : Statement) (st : Store) (k : String)
    (h : hasKey st k = true) : hasKey (execute_statement ops s st).store k = true :=
  match s with
  | Statement.activity nm args res => by
    rw [execute_statement, execute_activity]
    cases ops nm (args.map (resolve_argument st)) with
    | ok v =>
      cases res with
      | none => simpa using h
      | some r =>
        by_cases hr : r.isEmpty
        · simpa [hr] using h
        · simpa [hr] using hasKey_storeSet st r k v h
    | error e => simpa using h
  | Statement.sequence es => by
    rw [execute_statement]
    exact execElems_keys ops es st k h
  | Statement.parallel bs => by
    rw [execute_statement]
    exact execElems_keys ops bs st k h

theorem execElems_keys (ops : Ops) (es : List Statement) (st : Store) (k : String)
    (h : hasKey st k = true) : hasKey (execElems ops es st).store k = true :=
  match es with
  | [] => by simpa [execElems] using h
  | e :: rest => by
    rw [execElems]
    cases herr : (execute_statement ops e st).err with
    | none =>
      simp only [herr]
      exact execElems_keys ops rest (execute_statement ops e st).store k
        (execute_statement_keys ops e st k h)
    | some err =>
      simp only [herr]
      exact execute_statement_keys ops e st k h
end

mutual
theorem execute_statement_writes (ops : Ops) (s : Statement) (st : Store) (k : String)
    (h : dictGet (execute_statement ops s st).store k ≠ dictGet st k) :
    k ∈ resultNames s :=
  match s with
  | Statement.activity nm args res => by
    rw [execute_statement, execute_activity] at h
    cases hop : ops nm (args.map (resolve_argument st)) with
    | ok v =>
      cases res with
      | none => simp [hop] at h
      | some r =>
        by_cases hr : r.isEmpty
        · simp [hop, hr] at h
        · simp only [hop] at h
          rw [if_neg hr] at h
          have hk : k = r := dictGet_storeSet_changed st r k v h
          simp [resultNames, hk]
    | error e => simp [hop] at h
  | Statement.sequence es => by
    rw [execute_statement] at h
    exact execElems_writes ops es st k h
  | Statement.parallel bs => by
    rw [execute_statement] at h
    exact execElems_writes ops bs st k h

theorem execElems_writes (ops : Ops) (es : List Statement) (st : Store) (k : String)
    (h : dictGet (execElems ops es st).store k ≠ dictGet st k) :
    k ∈ resultNamesList es :=
  match es with
  | [] => by simp [execElems] at h
  | e :: rest => by
    rw [execElems] at h
    cases herr : (execute_statement ops e st).err with
    | none =>
      simp only [herr] at h
      by_cases hmid :
          dictGet (execElems ops rest (execute_statement ops e st).store).store k
            = dictGet (execute_statement ops e st).store k
      · have hfirst : dictGet (execute_statement ops e st).store k ≠ dictGet st k := by
          intro hc
          exact h (hmid.trans hc)
        exact List.mem_append_left _ (execute_statement_writes ops e st k hfirst)
      · exact List.mem_append_right _
          (execElems_writes ops rest (execute_statement ops e st).store k hmid)
    | some err =>
      simp only [herr] at h
      exact List.mem_append_left _ (execute_statement_writes ops e st k h)
end

/-! ### The top-level run (DSLWorkflow.run) -/

/-- The workflow input dataclass DSLInput: the root statement and the
initial variables (field named `variables` in the source). -/
structure DSLInput where
  root : Statement
  vars : Store

/-- The run metadata read from workflow.info(): workflow id, run id,
workflow type and attempt number. -/
structure RunInfo where
  workflow_id : String
  run_id : String
  workflow_type : String
  attempt : Int

/-- The store after the seeding phase of DSLWorkflow.run: a copy of
input.variables, then the four metadata writes, in source order. -/
def runSeed (info : RunInfo) (vs : Store) : Store :=
  storeSet (storeSet (storeSet (storeSet vs
    "workflow_id" (Value.vstr info.workflow_id))
    "run_id" (Value.vstr info.run_id))
    "workflow_type" (Value.vstr info.workflow_type))
    "attempt" (Value.vint info.attempt)

/-- DSLWorkflow.run: seed the store, execute the root statement, and on
success add workflow_status = "completed" and return the snapshot; an
execution failure escapes as the workflow failure and no snapshot is
returned.  The invocation log of the execution is exposed alongside. -/
def DSLWorkflow.run (ops : Ops) (info : RunInfo) (input : DSLInput) :
    Except String Store × List Invocation :=
  let r := execute_statement ops input.root (runSeed info input.vars)
  match r.err with
  | none => (Except.ok (storeSet r.store "workflow_status" (Value.vstr "completed")), r.log)
  | some e => (Except.error e, r.log)

/-! ### The definition loader (dsl_loader.py)

Python raises dynamic exceptions; the embedding returns them as values:
`unknownStatementType` is the ValueError raised by parse_statement when a
node carries none of the three keys, `keyError k` is the KeyError raised
by a mandatory subscript, and `typeError` stands for the TypeError (or
AttributeError) raised when a node component has an unusable shape — for
example a non-mapping under the `activity` key, or a non-string where the
typed dataclasses of dsl_workflow.py require a string. -/

inductive PErr where
  | unknownStatementType
  | keyError (k : String)
  | typeError

/-- Reads a YAML list as the `arguments: List[str]` of ActivityInvocation;
a non-string entry has no string counterpart in the typed statement model. -/
def strList : List Value → Option (List String)
  | [] => some []
  | Value.vstr s :: rest => (strList rest).map (fun ss => s :: ss)
  | _ :: _ => none

/-- parse_activity_statement: take the mapping under `activity`, default
`arguments` to the empty list when absent or null, require `name`
(KeyError when missing, no emptiness check), and read the optional
`result` (an explicit null counts as absent, as dict.get returns None for
both). -/
def parse_activity_statement (d : List (String × Value)) : Except PErr Statement :=
  match dictGet d "activity" with
  | some (Value.vdict a) =>
    let rawArgs : Value :=
      match dictGet a "arguments" with
      | none => Value.vlist []
      | some Value.vnull => Value.vlist []
      | some v => v
    match dictGet a "name", rawArgs with
    | some (Value.vstr nm), Value.vlist args =>
      match strList args with
      | some ss =>
        match dictGet a "result" with
        | none => Except.ok (Statement.activity nm ss none)
        | some Value.vnull => Except.ok (Statement.activity nm ss none)
        | some (Value.vstr r) => Except.ok (Statement.activity nm ss (some r))
        | some _ => Except.error PErr.typeError
      | none => Except.error PErr.typeError
    | none, _ => Except.error (PErr.keyError "name")
    | some _, _ => Except.error PErr.typeError
  | some _ => Except.error PErr.typeError
  | none => Except.error (PErr.keyError "activity")

/-- Shared shape of parse_sequence_statement / parse_parallel_statement:
`d[field][inner]` must be a list of raw child nodes (KeyError when `inner`
is missing, TypeError otherwise). -/
def elementsOf (d : List (String × Value)) (field inner : String) :
    Except PErr (List Value) :=
  match dictGet d field with
  | some (Value.vdict sd) =>
    match dictGet sd inner with
    | some (Value.vlist l) => Except.ok l
    | some _ => Except.error PErr.typeError
    | none => Except.error (PErr.keyError inner)
  | some _ => Except.error PErr.typeError
  | none => Except.error (PErr.keyError field)

theorem dictGet_sizeOf {m : List (String × Value)} {k : String} {v : Value}
    (h : dictGet m k = some v) : sizeOf v < sizeOf m := by
  induction m with
  | nil => simp [dictGet] at h
  | cons p rest ih =>
    obtain ⟨k₂, w⟩ := p
    rw [dictGet] at h
    by_cases hk : k₂ = k
    · rw [if_pos hk] at h
      obtain rfl : w = v := by injection h
      simp
      omega
    · rw [if_neg hk] at h
      have := ih h
      simp
      omega

theorem elementsOf_sizeOf {d : List (String × Value)} {f i : String} {l : List Value}
    (h : elementsOf d f i = Except.ok l) : sizeOf l < sizeOf d := by
  cases hf : dictGet d f with
  | none => rw [elementsOf] at h; simp [hf] at h
  | some v =>
    cases v with
    | vdict sd =>
      cases hi : dictGet sd i with
      | none => rw [elementsOf] at h; simp [hf, hi] at h
      | some w =>
        cases w with
        | vlist l₂ =>
          rw [elementsOf] at h
          simp [hf, hi] at h
          subst h
          have h₁ := dictGet_sizeOf hf
          have h₂ := dictGet_sizeOf hi
          simp at h₁ h₂
          omega
        | vnull => rw [elementsOf] at h; simp [hf, hi] at h
        | vbool b => rw [elementsOf] at h; simp [hf, hi] at h
        | vint n => rw [elementsOf] at h; simp [hf, hi] at h
        | vstr s => rw [elementsOf] at h; simp [hf, hi] at h
        | vdict m₂ => rw [elementsOf] at h; simp [hf, hi] at h
    | vnull => rw [elementsOf] at h; simp [hf] at h
    | vbool b => rw [elementsOf] at h; simp [hf] at h
    | vint n => rw [elementsOf] at h; simp [hf] at h
    | vstr s => rw [elementsOf] at h; simp [hf] at h
    | vlist l₂ => rw [elementsOf] at h; simp [hf] at h

mutual
/-- parse_statement: dispatch on the first of the keys `activity`,
`sequence`, `parallel` present in the raw node (the source checks them in
this order with if/elif), raising ValueError("Unknown statement type")
when none is present.  A non-mapping node cannot answer the membership
tests the way the loader expects and is mapped to `typeError`. -/
def parse_statement : Value → Except PErr Statement
  | Value.vdict d =>
    if hasKey d "activity" then parse_activity_statement d
    else if hasKey d "sequence" then parse_sequence_statement d
    else if hasKey d "parallel" then parse_parallel_statement d
    else Except.error PErr.unknownStatementType
  | _ => Except.error PErr.typeError
termination_by v => sizeOf v
decreasing_by
  all_goals
    simp_wf
    try omega

/-- parse_sequence_statement: read d["sequence"]["elements"] and parse
each child node in order. -/
def parse_sequence_statement (d : List (String × Value)) : Except PErr Statement :=
  match helems : elementsOf d "sequence" "elements" with
  | Except.ok l =>
    match parseElems l with
    | Except.ok ss => Except.ok (Statement.sequence ss)
    | Except.error e => Except.error e
  | Except.error e => Except.error e
termination_by sizeOf d
decreasing_by
  simp_wf
  exact elementsOf_sizeOf helems

/-- parse_parallel_statement: read d["parallel"]["branches"] and parse
each child node in order. -/
def parse_parallel_statement (d : List (String × Value)) : Except PErr Statement :=
  match helems : elementsOf d "parallel" "branches" with
  | Except.ok l =>
    match parseElems l with
    | Except.ok ss => Except.ok (Statement.parallel ss)
    | Except.error e => Except.error e
  | Except.error e => Except.error e
termination_by sizeOf d
decreasing_by
  simp_wf
  exact elementsOf_sizeOf helems

/-- The list comprehension parsing child nodes in order; the first raised
error propagates. -/
def parseElems : List Value → Except PErr (List Statement)
  | [] => Except.ok []
  | x :: xs =>
    match parse_statement x with
    | Except.ok s =>
      match parseElems xs with
      | Except.ok ss => Except.ok (s :: ss)
      | Except.error e => Except.error e
    | Except.error e => Except.error e
termination_by l => sizeOf l
decreasing_by
  all_goals
    simp_wf
    try omega
end

/-- Load-time failures of load_workflow_definition: `definitionNotFound` is
the FileNotFoundError of load_yaml_file for a missing source, and
`parseError` wraps the loader errors raised while parsing the raw tree. -/
inductive LoadErr where
  | definitionNotFound
  | parseError (e : PErr)

/-- What load_workflow_definition hands back: the parsed root statement and
the raw value found under the `variables` key (the DSLInput dataclass,
whose variables field carries this value unchecked). -/
structure LoadedDefinition where
  root : Statement
  vars : Value

/-- load_workflow_definition: `none` stands for a locator whose file does
not exist (load_yaml_file raises FileNotFoundError); otherwise the raw
YAML value is processed: `variables` is read with
`workflow_dict.get("variables", {})` — so the default applies only when
the key is missing, and an explicit `variables: null` stays null — and the
mandatory `root` node is parsed (KeyError when absent). -/
def load_workflow_definition (source : Option Value) : Except LoadErr LoadedDefinition :=
  match source with
  | none => Except.error LoadErr.definitionNotFound
  | some (Value.vdict d) =>
    let vs : Value :=
      match dictGet d "variables" with
      | none => Value.vdict []
      | some v => v
    match dictGet d "root" with
    | none => Except.error (LoadErr.parseError (PErr.keyError "root"))
    | some rootRaw =>
      match parse_statement rootRaw with
      | Except.ok root => Except.ok ⟨root, vs⟩
      | Except.error e => Except.error (LoadErr.parseError e)
  | some _ => Except.error (LoadErr.parseError PErr.typeError)

/-- The controller path that starts a DSL run (workflow_controller.py):
load_workflow_definition runs first, and only if it returns does
client.execute_workflow start DSLWorkflow.run with the loaded input — a
load-time failure therefore issues no invocation at all.  When the loaded
variables value is not a mapping (e.g. the explicit-null case),
`dict(input.variables)` in DSLWorkflow.run raises a TypeError during
seeding, also before any statement executes. -/
def start_workflow_run (ops : Ops) (info : RunInfo) (source : Option Value) :
    Except LoadErr (Except String Store) × List Invocation :=
  match load_workflow_definition source with
  | Except.error e => (Except.error e, [])
  | Except.ok df =>
    match df.vars with
    | Value.vdict m =>
      let r := DSLWorkflow.run ops info ⟨df.root, m⟩
      (Except.ok r.1, r.2)
    | _ => (Except.ok (Except.error "TypeError"), [])

/-! ### Concrete fixtures used by the closed witness theorems -/

/-- Activity stub of the specification's end-to-end example: load_search
returns 7, every other operation succeeds returning null. -/
def exampleOps : Ops := fun nm _ =>
  if nm = "load_search" then Except.ok (Value.vint 7) else Except.ok Value.vnull

/-- A fixed set of run metadata for concrete runs. -/
def exampleInfo : RunInfo :=
  ⟨"wf-1", "run-1", "DSLWorkflow", 1⟩

/-- The specification's end-to-end example: variables {shipperId: "S1"},
root = Sequence[Activity(load_search, [shipperId], result=found),
Activity(notify, [found])]. -/
def exampleInput : DSLInput :=
  ⟨Statement.sequence
      [Statement.activity "load_search" ["shipperId"] (some "found"),
       Statement.activity "notify" ["found"] none],
    [("shipperId", Value.vstr "S1")]⟩

/-- An oracle whose operation `boom` always fails with error "kaput" and
whose operation `ok_op` succeeds with 1. -/
def failOps : Ops := fun nm _ =>
  if nm = "boom" then Except.error "kaput" else Except.ok (Value.vint 1)

/-! ## Claim theorems -/

/-- C1 counterexample.  The claim says a dotted reference returns the value
reached by the walk unless a step meets a non-mapping or an absent key.
In the store {a: {b: null}} every walked key of "a.b" is present and every
intermediate value is a mapping, so the claim's reading returns the stored
null — but resolve_argument returns the original reference string, because
dict.get cannot distinguish a stored None from an absent key. -/
theorem c1_resolve_counterexample :
    resolveClaimSpec [("a", Value.vdict [("b", Value.vnull)])] "a.b" = Value.vnull ∧
    resolve_argument [("a", Value.vdict [("b", Value.vnull)])] "a.b" = Value.vstr "a.b" := by
  exact ⟨rfl, rfl⟩

/-- C1 (amended): the resolver is total and behaves exactly as claimed
except that the literal fallback also fires when the value looked up at
any step of a dotted walk — the final key included — is null:
resolve_argument agrees with the amended specification on every store and
every reference. -/
theorem c1_resolve_amended (vars : Store) (arg : String) :
    resolve_argument vars arg = resolveAmendedSpec vars arg := by
  rw [resolve_argument, resolveAmendedSpec]
  cases hd : containsDot arg with
  | false => simp [hd]
  | true =>
    simp only [hd, Bool.not_true, Bool.false_eq_true, if_false]
    exact resolveWalk_amendedWalk arg (splitDot arg) (Value.vdict vars)

/-- C10: a plain reference to a key stored with value null resolves to the
stored null, while a dotted reference whose walk looks up a null value at
any key — the final one included — falls back to the original full
reference string. -/
theorem c10_null_divergence (vars : Store) (k arg : String)
    (h₁ : containsDot k = false) (h₂ : dictGet vars k = some Value.vnull)
    (h₃ : containsDot arg = true)
    (h₄ : walkHitsNull (splitDot arg) (Value.vdict vars) = true) :
    resolve_argument vars k = Value.vnull ∧
    resolve_argument vars arg = Value.vstr arg := by
  constructor
  · rw [resolve_argument]
    simp [h₁, h₂]
  · rw [resolve_argument]
    simp only [h₃, Bool.not_true, Bool.false_eq_true, if_false]
    exact resolveWalk_of_hitsNull arg _ _ h₄

/-- C10 witness: in {a: {b: null}, x: null} the plain reference "x" gives
null while the dotted reference "a.b" degrades to the literal "a.b". -/
theorem c10_null_divergence_witness :
    resolve_argument [("a", Value.vdict [("b", Value.vnull)]), ("x", Value.vnull)] "x"
      = Value.vnull ∧
    resolve_argument [("a", Value.vdict [("b", Value.vnull)]), ("x", Value.vnull)] "a.b"
      = Value.vstr "a.b" :=
  c10_null_divergence [("a", Value.vdict [("b", Value.vnull)]), ("x", Value.vnull)]
    "x" "a.b" (by rfl) (by rfl) (by rfl) (by rfl)

/-- C3: a Sequence executes its elements strictly in order — after a
successful prefix the remaining elements run on the store produced by the
prefix (so a later element resolves resultNames written earlier), the
invocation log is the concatenation in element order, and when an element
fails all remaining elements are skipped (no invocation of theirs is ever
issued) while the failure propagates unchanged to the caller. -/
theorem c3_sequence_semantics (ops : Ops) (es₁ es₂ : List Statement) (e : Statement)
    (st st₁ : Store) (l₁ : List Invocation)
    (h : execute_sequence ops es₁ st = ⟨st₁, none, l₁⟩) :
    (execute_sequence ops (es₁ ++ es₂) st =
      ⟨(execute_sequence ops es₂ st₁).store, (execute_sequence ops es₂ st₁).err,
        l₁ ++ (execute_sequence ops es₂ st₁).log⟩) ∧
    (∀ st₂ err l₂, execute_statement ops e st₁ = ⟨st₂, some err, l₂⟩ →
      execute_sequence ops (es₁ ++ e :: es₂) st = ⟨st₂, some err, l₁ ++ l₂⟩) := by
  constructor
  · exact execElems_append_ok ops es₁ es₂ st st₁ l₁ h
  · intro st₂ err l₂ hf
    have h₂ := execElems_cons_fail ops e es₂ st₁ st₂ err l₂ hf
    have h₃ := execElems_append_ok ops es₁ (e :: es₂) st st₁ l₁ h
    rw [h₂] at h₃
    exact h₃

/-- C3 witness: in the sequence [ok_op→r1, boom, ok_op→r2] the failing
middle activity stops the run with the unchanged error "kaput"; the store
keeps r1, and the log shows the trailing element was never invoked. -/
theorem c3_sequence_semantics_witness :
    execute_sequence failOps
        ([Statement.activity "ok_op" [] (some "r1")] ++
          Statement.activity "boom" [] none :: [Statement.activity "ok_op" [] (some "r2")]) [] =
      ⟨[("r1", Value.vint 1)], some "kaput",
        [⟨"ok_op", [], 5, 3⟩] ++ [⟨"boom", [], 5, 3⟩]⟩ :=
  (c3_sequence_semantics failOps [Statement.activity "ok_op" [] (some "r1")]
      [Statement.activity "ok_op" [] (some "r2")] (Statement.activity "boom" [] none)
      [] [("r1", Value.vint 1)] [⟨"ok_op", [], 5, 3⟩] (by rfl)).2
    [("r1", Value.vint 1)] "kaput" [⟨"boom", [], 5, 3⟩] (by rfl)

/-- The final store of the specification's end-to-end example before the
completion marker is added. -/
def exampleFinalStore : Store :=
  [("shipperId", Value.vstr "S1"), ("workflow_id", Value.vstr "wf-1"),
   ("run_id", Value.vstr "run-1"), ("workflow_type", Value.vstr "DSLWorkflow"),
   ("attempt", Value.vint 1), ("found", Value.vint 7)]

/-- The invocation log of the end-to-end example: notify receives the
stored result 7 of load_search. -/
def exampleLog : List Invocation :=
  [⟨"load_search", [Value.vstr "S1"], 5, 3⟩, ⟨"notify", [Value.vint 7], 5, 3⟩]

/-- C4: on a successful run the store is seeded with input.variables and
then the four metadata writes are applied on top, so a metadata key always
reads back its metadata value even when a user variable collides; the
returned snapshot is the final store plus workflow_status = "completed",
and it preserves every other stored binding (in particular every stored
activity result). -/
theorem c4_run_success (ops : Ops) (info : RunInfo) (input : DSLInput)
    (st' : Store) (l : List Invocation)
    (h : execute_statement ops input.root (runSeed info input.vars) = ⟨st', none, l⟩) :
    DSLWorkflow.run ops info input =
      (Except.ok (storeSet st' "workflow_status" (Value.vstr "completed")), l) ∧
    dictGet (runSeed info input.vars) "workflow_id" = some (Value.vstr info.workflow_id) ∧
    dictGet (runSeed info input.vars) "run_id" = some (Value.vstr info.run_id) ∧
    dictGet (runSeed info input.vars) "workflow_type" = some (Value.vstr info.workflow_type) ∧
    dictGet (runSeed info input.vars) "attempt" = some (Value.vint info.attempt) ∧
    dictGet (storeSet st' "workflow_status" (Value.vstr "completed")) "workflow_status"
      = some (Value.vstr "completed") ∧
    (∀ k, k ≠ "workflow_status" →
      dictGet (storeSet st' "workflow_status" (Value.vstr "completed")) k = dictGet st' k) := by
  refine ⟨?_, ?_, ?_, ?_, ?_, ?_, ?_⟩
  · simp [DSLWorkflow.run, h]
  · rw [runSeed]
    rw [dictGet_storeSet_ne _ _ _ _ (by decide)]
    rw [dictGet_storeSet_ne _ _ _ _ (by decide)]
    rw [dictGet_storeSet_ne _ _ _ _ (by decide)]
    exact dictGet_storeSet_self _ _ _
  · rw [runSeed]
    rw [dictGet_storeSet_ne _ _ _ _ (by decide)]
    rw [dictGet_storeSet_ne _ _ _ _ (by decide)]
    exact dictGet_storeSet_self _ _ _
  · rw [runSeed]
    rw [dictGet_storeSet_ne _ _ _ _ (by decide)]
    exact dictGet_storeSet_self _ _ _
  · rw [runSeed]
    exact dictGet_storeSet_self _ _ _
  · exact dictGet_storeSet_self _ _ _
  · intro k hk
    exact dictGet_storeSet_ne _ _ _ _ hk

/-- C4 witness: the end-to-end example.  With load_search stubbed to 7 the
run succeeds, notify is invoked with the argument 7, and the snapshot
contains found = 7 and workflow_status = "completed". -/
theorem c4_run_success_witness :
    DSLWorkflow.run exampleOps exampleInfo exampleInput =
      (Except.ok (storeSet exampleFinalStore "workflow_status" (Value.vstr "completed")),
        exampleLog) ∧
    dictGet (storeSet exampleFinalStore "workflow_status" (Value.vstr "completed")) "found"
      = some (Value.vint 7) ∧
    dictGet (storeSet exampleFinalStore "workflow_status" (Value.vstr "completed"))
      "workflow_status" = some (Value.vstr "completed") ∧
    exampleLog.map Invocation.args = [[Value.vstr "S1"], [Value.vint 7]] :=
  ⟨(c4_run_success exampleOps exampleInfo exampleInput exampleFinalStore exampleLog
      (by rfl)).1, by rfl, by rfl, by rfl⟩

/-- C5: a run has exactly two outcomes — when the root statement executes
without error the run returns the complete snapshot (the final store plus
the completion marker), and when it fails the run terminates with exactly
that error and no store is returned (the result carries no snapshot
component at all); a load-time failure prevents execution entirely: the
composed start path returns the load error and an empty invocation log. -/
theorem c5_outcome_dichotomy (ops : Ops) (info : RunInfo) (input : DSLInput)
    (source : Option Value) :
    (∀ st' l, execute_statement ops input.root (runSeed info input.vars) = ⟨st', none, l⟩ →
      DSLWorkflow.run ops info input =
        (Except.ok (storeSet st' "workflow_status" (Value.vstr "completed")), l)) ∧
    (∀ st' e l, execute_statement ops input.root (runSeed info input.vars) = ⟨st', some e, l⟩ →
      DSLWorkflow.run ops info input = (Except.error e, l)) ∧
    (∀ e, load_workflow_definition source = Except.error e →
      start_workflow_run ops info source = (Except.error e, [])) := by
  refine ⟨?_, ?_, ?_⟩
  · intro st' l h
    simp [DSLWorkflow.run, h]
  · intro st' e l h
    simp [DSLWorkflow.run, h]
  · intro e h
    rw [start_workflow_run, h]

/-- C5 witness: a root consisting of the failing activity boom makes the
run fail with the unchanged error "kaput" and no snapshot, and a missing
definition source yields the load error with an empty invocation log. -/
theorem c5_outcome_dichotomy_witness :
    DSLWorkflow.run failOps exampleInfo ⟨Statement.activity "boom" [] none, []⟩ =
      (Except.error "kaput", [⟨"boom", [], 5, 3⟩]) ∧
    start_workflow_run failOps exampleInfo none =
      (Except.error LoadErr.definitionNotFound, []) :=
  ⟨(c5_outcome_dichotomy failOps exampleInfo ⟨Statement.activity "boom" [] none, []⟩
      none).2.1 (runSeed exampleInfo []) "kaput" [⟨"boom", [], 5, 3⟩] (by rfl),
   (c5_outcome_dichotomy failOps exampleInfo ⟨Statement.activity "boom" [] none, []⟩
      none).2.2 LoadErr.definitionNotFound (by rfl)⟩

/-- C7 counterexample.  The claim says the result is written exactly when
resultName is set; but `if stmt.activity.result:` uses Python truthiness,
so a result name that is set to the empty string skips the write: here the
activity succeeds, resultName = some "" is set, and the store is returned
unchanged. -/
theorem c7_activity_counterexample :
    (some "" : Option String) ≠ none ∧
    execute_activity failOps "ok_op" [] (some "") [("x", Value.vnull)] =
      ⟨[("x", Value.vnull)], none, [⟨"ok_op", [], 5, 3⟩]⟩ := by
  exact ⟨by simp, rfl⟩

/-- C7 (amended): executing an Activity resolves each argument against the
current store in order into the positional list, invokes the named
operation with the 5-minute start-to-close timeout and the 3-attempt retry
policy, and on success writes the result under resultName (overwriting any
existing binding) exactly when resultName is set to a non-empty string —
a resultName of None or "" leaves the store unchanged; on failure the
error is surfaced and the store is unchanged. -/
theorem c7_activity_amended (ops : Ops) (nm : String) (args : List String)
    (res : Option String) (st : Store) :
    ((execute_activity ops nm args res st).log =
      [⟨nm, args.map (resolve_argument st), 5, 3⟩]) ∧
    (∀ v, ops nm (args.map (resolve_argument st)) = Except.ok v →
      (execute_activity ops nm args res st).err = none ∧
      (∀ r, res = some r → r.isEmpty = false →
        (execute_activity ops nm args res st).store = storeSet st r v ∧
        dictGet (execute_activity ops nm args res st).store r = some v) ∧
      ((res = none ∨ res = some "") →
        (execute_activity ops nm args res st).store = st)) ∧
    (∀ e, ops nm (args.map (resolve_argument st)) = Except.error e →
      execute_activity ops nm args res st =
        ⟨st, some e, [⟨nm, args.map (resolve_argument st), 5, 3⟩]⟩) := by
  refine ⟨?_, ?_, ?_⟩
  · rw [execute_activity]
    cases hop : ops nm (args.map (resolve_argument st)) <;> simp [hop]
  · intro v hop
    refine ⟨?_, ?_, ?_⟩
    · simp [execute_activity, hop]
    · intro r hr hre
      subst hr
      constructor
      · simp [execute_activity, hop, hre]
      · simp [execute_activity, hop, hre, dictGet_storeSet_self]
    · intro hcase
      cases hcase with
      | inl hn => subst hn; simp [execute_activity, hop]
      | inr hs => subst hs; simp [execute_activity, hop, String.isEmpty]
  · intro e hop
    simp [execute_activity, hop]

/-- C7 witness: load_search with argument shipperId and resultName found on
the example store — the write happens, overwriting nothing else, and the
logged invocation carries the resolved argument and the policy constants. -/
theorem c7_activity_amended_witness :
    (execute_activity exampleOps "load_search" ["shipperId"] (some "found")
        [("shipperId", Value.vstr "S1")]).store =
      storeSet [("shipperId", Value.vstr "S1")] "found" (Value.vint 7) ∧
    dictGet (execute_activity exampleOps "load_search" ["shipperId"] (some "found")
        [("shipperId", Value.vstr "S1")]).store "found" = some (Value.vint 7) ∧
    (execute_activity exampleOps "load_search" ["shipperId"] (some "found")
        [("shipperId", Value.vstr "S1")]).log =
      [⟨"load_search", [Value.vstr "S1"], 5, 3⟩] :=
  ⟨(((c7_activity_amended exampleOps "load_search" ["shipperId"] (some "found")
        [("shipperId", Value.vstr "S1")]).2.1 (Value.vint 7) (by rfl)).2.1 "found"
      (by rfl) (by rfl)).1,
   (((c7_activity_amended exampleOps "load_search" ["shipperId"] (some "found")
        [("shipperId", Value.vstr "S1")]).2.1 (Value.vint 7) (by rfl)).2.1 "found"
      (by rfl) (by rfl)).2,
   by rfl⟩

/-- C9: interpreter steps preserve the store invariants — no key is ever
removed (every key of the incoming store is a key of the outgoing store),
a binding changes only at a key that is the resultName of some activity in
the executed statement, and executing an empty Sequence or an empty
Parallel is a no-op returning the store unchanged with no invocation. -/
theorem c9_store_invariants (ops : Ops) (s : Statement) (st : Store) :
    (∀ k, hasKey st k = true → hasKey (execute_statement ops s st).store k = true) ∧
    (∀ k, dictGet (execute_statement ops s st).store k ≠ dictGet st k →
      k ∈ resultNames s) ∧
    execute_sequence ops [] st = ⟨st, none, []⟩ ∧
    execute_parallel ops [] st = ⟨st, none, []⟩ :=
  ⟨fun k h => execute_statement_keys ops s st k h,
   fun k h => execute_statement_writes ops s st k h,
   rfl, rfl⟩

/-- C9 witness: on the end-to-end example run, the seeded key shipperId
survives execution, and the one changed binding ("found") is indeed a
resultName of the executed statement tree. -/
theorem c9_store_invariants_witness :
    hasKey (execute_statement exampleOps exampleInput.root
        (runSeed exampleInfo exampleInput.vars)).store "shipperId" = true ∧
    "found" ∈ resultNames exampleInput.root ∧
    execute_sequence exampleOps [] [] = ⟨[], none, []⟩ :=
  ⟨(c9_store_invariants exampleOps exampleInput.root
      (runSeed exampleInfo exampleInput.vars)).1 "shipperId" (by rfl),
   (c9_store_invariants exampleOps exampleInput.root
      (runSeed exampleInfo exampleInput.vars)).2.1 "found"
    (by
      intro h
      have h₁ : dictGet (execute_statement exampleOps exampleInput.root
          (runSeed exampleInfo exampleInput.vars)).store "found"
            = some (Value.vint 7) := rfl
      have h₂ : dictGet (runSeed exampleInfo exampleInput.vars) "found" = none := rfl
      rw [h₁, h₂] at h
      exact Option.noConfusion h),
   (c9_store_invariants exampleOps exampleInput.root []).2.2.1⟩

/-- C6 counterexample.  The claim requires a node containing more than one
of the keys activity/sequence/parallel to fail with UnknownStatementType,
and an activity name to be a non-empty string; but parse_statement
dispatches on the first matching key of its if/elif chain, so a node with
both activity and sequence parses as the activity, and an empty name is
accepted unchecked. -/
theorem c6_parse_counterexample :
    parse_statement (Value.vdict
        [("activity", Value.vdict [("name", Value.vstr "a")]),
         ("sequence", Value.vdict [("elements", Value.vlist [])])]) =
      Except.ok (Statement.activity "a" [] none) ∧
    parse_statement (Value.vdict [("activity", Value.vdict [("name", Value.vstr "")])]) =
      Except.ok (Statement.activity "" [] none) := by
  constructor
  · rw [parse_statement]
    simp [hasKey, dictGet, parse_activity_statement, strList]
  · rw [parse_statement]
    simp [hasKey, dictGet, parse_activity_statement, strList]

/-- C6 (amended): parse_statement dispatches on the first of the keys
activity, sequence, parallel present in the node, in that priority order —
a node containing more than one of them is parsed by the highest-priority
key, not rejected: an activity-bearing node goes to
parse_activity_statement, a sequence-bearing node without activity goes to
parse_sequence_statement (also when parallel is present), and a
parallel-bearing node without the other two goes to
parse_parallel_statement — and only a node containing none of the three
fails with UnknownStatementType; an activity requires the name key to be
present (a missing name is a KeyError, not UnknownStatementType) but the
name is not checked for non-emptiness, and arguments defaults to the
empty sequence when absent or explicitly null, with result optional;
well-formed sequence and parallel nodes parse to the Sequence or Parallel
of their parsed children. -/
theorem c6_parse_amended (d : List (String × Value)) :
    (hasKey d "activity" = true →
      parse_statement (Value.vdict d) = parse_activity_statement d) ∧
    (hasKey d "activity" = false → hasKey d "sequence" = true →
      parse_statement (Value.vdict d) = parse_sequence_statement d) ∧
    (hasKey d "activity" = false → hasKey d "sequence" = false →
      hasKey d "parallel" = true →
      parse_statement (Value.vdict d) = parse_parallel_statement d) ∧
    (hasKey d "activity" = false → hasKey d "sequence" = false →
      hasKey d "parallel" = false →
      parse_statement (Value.vdict d) = Except.error PErr.unknownStatementType) ∧
    (∀ a nm, dictGet d "activity" = some (Value.vdict a) →
      dictGet a "name" = some (Value.vstr nm) →
      dictGet a "arguments" = none → dictGet a "result" = none →
      parse_activity_statement d = Except.ok (Statement.activity nm [] none)) ∧
    (∀ a nm, dictGet d "activity" = some (Value.vdict a) →
      dictGet a "name" = some (Value.vstr nm) →
      dictGet a "arguments" = some Value.vnull → dictGet a "result" = none →
      parse_activity_statement d = Except.ok (Statement.activity nm [] none)) ∧
    (∀ a, dictGet d "activity" = some (Value.vdict a) → dictGet a "name" = none →
      parse_activity_statement d = Except.error (PErr.keyError "name")) ∧
    (∀ sd l ss, dictGet d "sequence" = some (Value.vdict sd) →
      dictGet sd "elements" = some (Value.vlist l) → parseElems l = Except.ok ss →
      parse_sequence_statement d = Except.ok (Statement.sequence ss)) ∧
    (∀ pd l ss, dictGet d "parallel" = some (Value.vdict pd) →
      dictGet pd "branches" = some (Value.vlist l) → parseElems l = Except.ok ss →
      parse_parallel_statement d = Except.ok (Statement.parallel ss)) := by
  refine ⟨?_, ?_, ?_, ?_, ?_, ?_, ?_, ?_, ?_⟩
  · intro h₁
    rw [parse_statement]
    simp [h₁]
  · intro h₁ h₂
    rw [parse_statement]
    simp [h₁, h₂]
  · intro h₁ h₂ h₃
    rw [parse_statement]
    simp [h₁, h₂, h₃]
  · intro h₁ h₂ h₃
    rw [parse_statement]
    simp [h₁, h₂, h₃]
  · intro a nm h₁ h₂ h₃ h₄
    rw [parse_activity_statement]
    simp [h₁, h₂, h₃, h₄, strList]
  · intro a nm h₁ h₂ h₃ h₄
    rw [parse_activity_statement]
    simp [h₁, h₂, h₃, h₄, strList]
  · intro a h₁ h₂
    rw [parse_activity_statement]
    simp [h₁, h₂]
  · intro sd l ss h₁ h₂ h₃
    have he : elementsOf d "sequence" "elements" = Except.ok l := by
      simp [elementsOf, h₁, h₂]
    rw [parse_sequence_statement]
    split
    next l₂ heq =>
      rw [he] at heq
      obtain rfl : l = l₂ := Except.ok.inj heq
      rw [h₃]
    next e heq =>
      rw [he] at heq
      exact absurd heq (by simp)
  · intro pd l ss h₁ h₂ h₃
    have he : elementsOf d "parallel" "branches" = Except.ok l := by
      simp [elementsOf, h₁, h₂]
    rw [parse_parallel_statement]
    split
    next l₂ heq =>
      rw [he] at heq
      obtain rfl : l = l₂ := Except.ok.inj heq
      rw [h₃]
    next e heq =>
      rw [he] at heq
      exact absurd heq (by simp)

/-- C6 witness: a plain activity node dispatches to
parse_activity_statement and parses with the defaults; a node carrying
both sequence and parallel (no activity) dispatches to
parse_sequence_statement — sequence takes priority over parallel — and
parses to an empty Sequence; a parallel-only node dispatches to
parse_parallel_statement and parses to an empty Parallel; a node with
none of the three keys fails with UnknownStatementType. -/
theorem c6_parse_amended_witness :
    parse_statement (Value.vdict [("activity", Value.vdict [("name", Value.vstr "a")])]) =
      parse_activity_statement [("activity", Value.vdict [("name", Value.vstr "a")])] ∧
    parse_activity_statement [("activity", Value.vdict [("name", Value.vstr "a")])] =
      Except.ok (Statement.activity "a" [] none) ∧
    parse_statement (Value.vdict
        [("sequence", Value.vdict [("elements", Value.vlist [])]),
         ("parallel", Value.vdict [("branches", Value.vlist [])])]) =
      parse_sequence_statement
        [("sequence", Value.vdict [("elements", Value.vlist [])]),
         ("parallel", Value.vdict [("branches", Value.vlist [])])] ∧
    parse_sequence_statement
        [("sequence", Value.vdict [("elements", Value.vlist [])]),
         ("parallel", Value.vdict [("branches", Value.vlist [])])] =
      Except.ok (Statement.sequence []) ∧
    parse_statement (Value.vdict [("parallel", Value.vdict [("branches", Value.vlist [])])]) =
      parse_parallel_statement [("parallel", Value.vdict [("branches", Value.vlist [])])] ∧
    parse_parallel_statement [("parallel", Value.vdict [("branches", Value.vlist [])])] =
      Except.ok (Statement.parallel []) ∧
    parse_statement (Value.vdict [("other", Value.vnull)]) =
      Except.error PErr.unknownStatementType :=
  ⟨(c6_parse_amended [("activity", Value.vdict [("name", Value.vstr "a")])]).1 (by rfl),
   (c6_parse_amended [("activity", Value.vdict [("name", Value.vstr "a")])]).2.2.2.2.1
     [("name", Value.vstr "a")] "a" (by rfl) (by rfl) (by rfl) (by rfl),
   (c6_parse_amended
       [("sequence", Value.vdict [("elements", Value.vlist [])]),
        ("parallel", Value.vdict [("branches", Value.vlist [])])]).2.1 (by rfl) (by rfl),
   (c6_parse_amended
       [("sequence", Value.vdict [("elements", Value.vlist [])]),
        ("parallel", Value.vdict [("branches", Value.vlist [])])]).2.2.2.2.2.2.2.1
     [("elements", Value.vlist [])] [] [] (by rfl) (by rfl) (by rw [parseElems]),
   (c6_parse_amended [("parallel", Value.vdict [("branches", Value.vlist [])])]).2.2.1
     (by rfl) (by rfl) (by rfl),
   (c6_parse_amended [("parallel", Value.vdict [("branches", Value.vlist [])])]).2.2.2.2.2.2.2.2
     [("branches", Value.vlist [])] [] [] (by rfl) (by rfl) (by rw [parseElems]),
   (c6_parse_amended [("other", Value.vnull)]).2.2.2.1 (by rfl) (by rfl) (by rfl)⟩

/-- C8 counterexample.  The claim says variables defaults to the empty
mapping when the key is missing or null (raw.variables or {}), but the
code reads it with workflow_dict.get("variables", {}), whose default
applies only when the key is missing: an explicit `variables: null` is
returned as null, not as the empty mapping. -/
theorem c8_load_counterexample :
    load_workflow_definition (some (Value.vdict
        [("variables", Value.vnull),
         ("root", Value.vdict [("activity", Value.vdict [("name", Value.vstr "a")])])])) =
      Except.ok ⟨Statement.activity "a" [] none, Value.vnull⟩ ∧
    Value.vnull ≠ Value.vdict [] := by
  constructor
  · have hroot : parse_statement
        (Value.vdict [("activity", Value.vdict [("name", Value.vstr "a")])]) =
        Except.ok (Statement.activity "a" [] none) := by
      rw [parse_statement]
      simp [hasKey, dictGet, parse_activity_statement, strList]
    rw [load_workflow_definition]
    simp [dictGet, hroot]
  · intro h
    exact Value.noConfusion h

/-- C8 (amended): load fails with DefinitionNotFound when the source does
not exist, fails with the parse error raised on a structural violation
(including a missing root key), and otherwise returns the parsed root
together with the raw variables value, where the empty-mapping default
applies only when the variables key is missing — a present value,
an explicit null included, is passed through unchanged. -/
theorem c8_load_amended (d : List (String × Value)) (rootRaw : Value) (root : Statement) :
    load_workflow_definition none = Except.error LoadErr.definitionNotFound ∧
    (dictGet d "root" = none →
      load_workflow_definition (some (Value.vdict d)) =
        Except.error (LoadErr.parseError (PErr.keyError "root"))) ∧
    (∀ e, dictGet d "root" = some rootRaw → parse_statement rootRaw = Except.error e →
      load_workflow_definition (some (Value.vdict d)) =
        Except.error (LoadErr.parseError e)) ∧
    (dictGet d "variables" = none → dictGet d "root" = some rootRaw →
      parse_statement rootRaw = Except.ok root →
      load_workflow_definition (some (Value.vdict d)) =
        Except.ok ⟨root, Value.vdict []⟩) ∧
    (∀ v, dictGet d "variables" = some v → dictGet d "root" = some rootRaw →
      parse_statement rootRaw = Except.ok root →
      load_workflow_definition (some (Value.vdict d)) = Except.ok ⟨root, v⟩) := by
  refine ⟨rfl, ?_, ?_, ?_, ?_⟩
  · intro h₁
    rw [load_workflow_definition]
    simp [h₁]
  · intro e h₁ h₂
    rw [load_workflow_definition]
    simp [h₁, h₂]
  · intro h₁ h₂ h₃
    rw [load_workflow_definition]
    simp [h₁, h₂, h₃]
  · intro v h₁ h₂ h₃
    rw [load_workflow_definition]
    simp [h₁, h₂, h₃]

/-- C8 witness: a source without a variables key loads with the empty
default, a missing source is DefinitionNotFound, and a root node carrying
none of the three statement keys makes load fail with the parse error. -/
theorem c8_load_amended_witness :
    load_workflow_definition none = Except.error LoadErr.definitionNotFound ∧
    load_workflow_definition (some (Value.vdict
        [("root", Value.vdict [("activity", Value.vdict [("name", Value.vstr "a")])])])) =
      Except.ok ⟨Statement.activity "a" [] none, Value.vdict []⟩ ∧
    load_workflow_definition (some (Value.vdict [("root", Value.vdict [("x", Value.vnull)])])) =
      Except.error (LoadErr.parseError PErr.unknownStatementType) :=
  ⟨(c8_load_amended [] Value.vnull (Statement.sequence [])).1,
   (c8_load_amended
       [("root", Value.vdict [("activity", Value.vdict [("name", Value.vstr "a")])])]
       (Value.vdict [("activity", Value.vdict [("name", Value.vstr "a")])])
       (Statement.activity "a" [] none)).2.2.2.1 (by rfl) (by rfl)
     (by
       rw [parse_statement]
       simp [hasKey, dictGet, parse_activity_statement, strList]),
   (c8_load_amended [("root", Value.vdict [("x", Value.vnull)])]
       (Value.vdict [("x", Value.vnull)]) (Statement.sequence [])).2.2.1
     PErr.unknownStatementType (by rfl)
     (by
       rw [parse_statement]
       simp [hasKey, dictGet])⟩
